import Mathlib

/-!
Verification of the notebook helper functions in `Project/notebooks/functions.py`
(Splunk-driven web-log analysis utilities): the yes/no confirmation prompt,
the HTTP status classifier, the top-N group-by aggregator, the dataset
fetcher's sequencing and error handling, the geolocation resolver, and the
moving-average/anomaly renderer.

Python strings are modelled as Lean `String`s; Python `None` as `Option`;
Python floats as exact rationals `ℚ`; interactive input, the HTTP transport,
the filesystem and the plotting surface as explicit parameters and event
traces.  External library behaviour (`requests`, `pandas`, `scipy`,
`IP2Location`) is modelled from its documented semantics where the repository
code relies on it.
-/

namespace P4DS

/-! ### Confirmation prompt (`yesNo`, functions.py lines 26-55) -/

/-- Python `str.lower()` restricted to ASCII case mapping (the inputs the
prompt cares about are ASCII). -/
def pyLower (s : String) : String := ⟨s.data.map Char.toLower⟩

/-- Python `str.strip()`: drop leading and trailing whitespace. -/
def pyStrip (s : String) : String :=
  ⟨((s.data.dropWhile Char.isWhitespace).reverse.dropWhile Char.isWhitespace).reverse⟩

/-- The branch on `answer[0]` in `yesNo`: `'y'` gives `True`, `'n'` gives
`False`, anything else gives `False if default_no else True`.  The empty-list
arm is unreachable because the caller substitutes the default answer for an
empty string (Python would raise `IndexError` there). -/
def answerValue (answer : List Char) (default_no : Bool) : Bool :=
  match answer with
  | [] => false
  | c :: _ =>
    if c = 'y' then true
    else if c = 'n' then false
    else if default_no then false else true

/-- `yesNo(question, default_no)`: lower-case and strip the typed line, fall
back to the default answer (`'n'` when `default_no`, else `'y'`) when the
result is empty — Python's `... or default_answer` — then look only at the
first character.  The `question` string only affects the prompt text, not
the result, so it is omitted. -/
def yesNo (input : String) (default_no : Bool) : Bool :=
  answerValue
    (if (pyStrip (pyLower input)).data = []
     then (if default_no then "n" else "y").data
     else (pyStrip (pyLower input)).data)
    default_no

/-! ### HTTP status classifier (`httpStatusClass`, functions.py lines 185-206) -/

/-- Python `s.startswith(c)` for a one-character pattern: the first character
of `s` equals `c` (`False` on the empty string). -/
def pyStartsWith (s : String) (c : Char) : Bool :=
  match s.data with
  | [] => false
  | d :: _ => d = c

/-- `httpStatusClass(series)`: chain of `startswith` tests on `'1'`..`'5'`;
falling through every test returns Python `None`, modelled as `none`. -/
def httpStatusClass (series : String) : Option String :=
  if pyStartsWith series '1' then some "Informational"
  else if pyStartsWith series '2' then some "Success"
  else if pyStartsWith series '3' then some "Redirection"
  else if pyStartsWith series '4' then some "Client errors"
  else if pyStartsWith series '5' then some "Server errors"
  else none

/-! ### Top-N aggregator (`dataGroupby`, functions.py lines 208-225)

A dataframe row is modelled as a function from column name to cell value;
`df.groupby(by).size()` therefore counts, for each distinct value of the
`by` column, the rows carrying that value.  `sort_values(ascending=False)`
sorts those (key, count) pairs by count descending — pandas leaves the
relative order of equal counts unspecified (quicksort), so any
count-descending reordering realises it; insertion sort is used here.
`[:top]` is `List.take`. -/

/-- The column of values `df[by]`. -/
def columnValues (df : List (String → String)) (col : String) : List String :=
  df.map (fun row => row col)

/-- Count-descending comparison on (key, count) pairs, the order
`sort_values(ascending=False)` arranges the groups in. -/
def countDesc (a b : String × Nat) : Prop := b.2 ≤ a.2

instance : DecidableRel countDesc :=
  fun a b => inferInstanceAs (Decidable (b.2 ≤ a.2))

instance : IsTotal (String × Nat) countDesc :=
  ⟨fun a b => Nat.le_total b.2 a.2⟩

instance : IsTrans (String × Nat) countDesc :=
  ⟨fun _ _ _ h h2 => Nat.le_trans h2 h⟩

/-- `df.groupby(by).size()`: one (key, count) pair per distinct value of the
grouping column. -/
def groupSizes (df : List (String → String)) (col : String) : List (String × Nat) :=
  (columnValues df col).dedup.map (fun k => (k, (columnValues df col).count k))

/-- `dataGroupby(df, by, top)`: group, count, sort by count descending, keep
the first `top` entries. -/
def dataGroupby (df : List (String → String)) (col : String) (top : Nat) :
    List (String × Nat) :=
  ((groupSizes df col).insertionSort countDesc).take top

/-! ### Dataset fetcher (`downloadData`, functions.py lines 58-142)

Interactive input, the HTTP transport and the filesystem are modelled as a
`SplunkEnv` describing what each external step would yield in one execution;
`downloadData` then maps that environment to the trace of observable side
effects plus the exception, if any, that escapes the function.  The four
`except requests.exceptions.*` clauses are the only handlers, so a transport
failure is caught while an `OSError` raised by `os.makedirs` or the file
write inside the `try` block would escape. -/

/-- ANSI escape `'\033[1;32;1m'`. -/
def GREEN : String := "\x1b[1;32;1m"

/-- ANSI escape `'\33[0m'`. -/
def CEND : String := "\x1b[0m"

/-- ANSI escape `'\033[1;91;1m'`. -/
def RED : String := "\x1b[1;91;1m"

/-- The four `requests` failure categories distinguished by the `except`
clauses, each carrying the exception's message text. -/
inductive TransportError
  | httpError (msg : String)
  | connectionError (msg : String)
  | timeout (msg : String)
  | other (msg : String)
deriving DecidableEq

/-- An operating-system error (from `os.makedirs` or `open`/`write`), which
no `except` clause of `downloadData` catches. -/
inductive OSErr
  | osError (msg : String)
deriving DecidableEq

/-- A `requests` response: status code, body text, and the message of the
`HTTPError` that `raise_for_status` would raise on an error status. -/
structure HttpResponse where
  status : Nat
  text : String
  errorText : String
deriving DecidableEq

/-- One observable side effect of `downloadData`. -/
inductive Event
  | printed (msg : String)
  | readUsername
  | readPassword
  | httpPost (url : String) (outputMode : String) (searchBody : String)
  | madeDir (path : String)
  | wroteFile (filename : String) (contents : String)
  | progressBar (size : Nat)
deriving DecidableEq

/-- One execution's external world: the line typed at the confirmation
prompt, the outcome of `requests.post`, whether `os.path.isdir(path)` holds,
the outcomes of `os.makedirs` and of the file write, and the written file's
size (driving the progress bar). -/
structure SplunkEnv where
  answer : String
  post : Except TransportError HttpResponse
  dirExists : Bool
  makedirs : Except OSErr Unit
  writeFile : Except OSErr Unit
  fileSize : Nat

/-- `response.raise_for_status()`: raises `HTTPError` exactly when the
status code lies in [400, 600). -/
def raise_for_status (r : HttpResponse) : Except TransportError Unit :=
  if 400 ≤ r.status ∧ r.status < 600 then .error (.httpError r.errorText)
  else .ok ()

def connectMsg : String := "Trying to connect ...."

def httpOkMsg : String := "HTTP Status is " ++ GREEN ++ "OK" ++ CEND

def apiDownloadMsg (host : String) : String :=
  "Trying to download data from " ++ host ++ " via API"

def dirCreatedMsg (path : String) : String :=
  "Directory " ++ RED ++ path ++ " not exists" ++ CEND ++ ", created directory"

def dirExistsMsg (path : String) : String :=
  "Directory " ++ GREEN ++ path ++ " already exists" ++ CEND ++ "."

def savedMsg (output_file output_type : String) : String :=
  "Saving file " ++ GREEN ++ output_file ++ "." ++ output_type ++ CEND ++
    " is " ++ GREEN ++ "done" ++ CEND

def happyMsg : String := GREEN ++ "Happy analyzing!! (ツ)" ++ CEND

def credsMsg : String := "Enter Splunk credentials for downloading new data"

def declineMsg : String := RED ++ "New data will not be downloaded (︶︿︶)" ++ CEND

/-- The distinct human-readable message each `except` clause prints. -/
def transportMsg : TransportError → String
  | .httpError m => RED ++ "HTTP Error: " ++ m ++ CEND
  | .connectionError m => RED ++ "Error Connecting: " ++ m ++ CEND
  | .timeout m => RED ++ "Timeout Error: " ++ m ++ CEND
  | .other m => RED ++ "OOps: Something Else: " ++ m ++ CEND

/-- The POST endpoint `https://{host}:8089/servicesNS/{user}/{app}/search/jobs/export`. -/
def exportUrl (host search_user app : String) : String :=
  "https://" ++ host ++ ":8089/servicesNS/" ++ search_user ++ "/" ++ app ++
    "/search/jobs/export"

/-- The POST body `search=loadjob savedsearch={user}:{app}:{searchname}`. -/
def searchBody (search_user app searchname : String) : String :=
  "loadjob savedsearch=" ++ search_user ++ ":" ++ app ++ ":" ++ searchname

/-- How the `try` block of `downloadData` can end. -/
inductive TryResult
  | completed (events : List Event)
  | transportFailed (events : List Event) (e : TransportError)
  | osRaised (events : List Event) (e : OSErr)

/-- The `try` block: status print, POST, `raise_for_status`, status prints,
directory check/creation, file write, progress bar, final prints.  A
`requests` failure ends in `transportFailed` (about to be caught by an
`except` clause); an `OSError` ends in `osRaised` (caught by nothing). -/
def tryDownload (env : SplunkEnv)
    (search_user app searchname path output_file output_type host : String) :
    TryResult :=
  let evs := [Event.printed connectMsg,
    Event.httpPost (exportUrl host search_user app) output_type
      (searchBody search_user app searchname)]
  match env.post with
  | .error e => .transportFailed evs e
  | .ok resp =>
    match raise_for_status resp with
    | .error e => .transportFailed evs e
    | .ok _ =>
      let evs := evs ++ [Event.printed httpOkMsg,
        Event.printed (apiDownloadMsg host)]
      let writeStep : List Event → TryResult := fun evs =>
        match env.writeFile with
        | .error o => .osRaised evs o
        | .ok _ =>
          .completed (evs ++
            [Event.wroteFile (path ++ output_file ++ "." ++ output_type) resp.text,
             Event.progressBar env.fileSize,
             Event.printed (savedMsg output_file output_type),
             Event.printed happyMsg])
      if env.dirExists then
        writeStep (evs ++ [Event.printed (dirExistsMsg path)])
      else
        match env.makedirs with
        | .error o => .osRaised evs o
        | .ok _ =>
          writeStep (evs ++ [Event.madeDir path, Event.printed (dirCreatedMsg path)])

/-- The outcome of one `downloadData` call: its event trace, and the
exception escaping to the caller, if any. -/
structure RunResult where
  events : List Event
  raised : Option OSErr
deriving DecidableEq

/-- `downloadData`: confirmation prompt with default No; on yes, the
credential prompts, then the `try` block with its four
`except requests.exceptions.*` handlers, each printing its message and
swallowing the error; on no, a single print. -/
def downloadData (env : SplunkEnv)
    (search_user app searchname path output_file output_type host : String) :
    RunResult :=
  if yesNo env.answer true then
    let pre := [Event.printed credsMsg, Event.readUsername, Event.readPassword]
    match tryDownload env search_user app searchname path output_file
        output_type host with
    | .completed evs => ⟨pre ++ evs, none⟩
    | .transportFailed evs e => ⟨pre ++ evs ++ [Event.printed (transportMsg e)], none⟩
    | .osRaised evs e => ⟨pre ++ evs, some e⟩
  else
    ⟨[Event.printed declineMsg], none⟩

/-! ### Geolocation resolver (`getLocation`, functions.py lines 145-182) -/

/-- The fields `IP2Location.get_all` returns for an IP (latitude and
longitude are numeric). -/
structure IP2LocationRecord where
  ip : String
  country_short : String
  country_long : String
  region : String
  city : String
  latitude : ℚ
  longitude : ℚ
deriving DecidableEq

/-- A cell of the returned pandas Series: a string or a number. -/
inductive GeoValue
  | str (s : String)
  | num (q : ℚ)
deriving DecidableEq

/-- `getLocation(ip)`: open the IP2Location database at the fixed relative
path `../data/IP2LOCATION-LITE-DB5/IP2LOCATION-LITE-DB5.BIN`, call
`database.get_all(ip)`, and build a pandas Series keyed
`clientip`/`country_short`/`country_long`/`region`/`city`/`latitude`/`longitude`
from the result's fields.  The opened database is modelled as the lookup
function `database`; `none` models the library raising (malformed IP,
missing or corrupt file), which `getLocation` does not catch. -/
def getLocation (database : String → Option IP2LocationRecord) (ip : String) :
    Option (List (String × GeoValue)) :=
  (database ip).map (fun result =>
    [("clientip", .str result.ip),
     ("country_short", .str result.country_short),
     ("country_long", .str result.country_long),
     ("region", .str result.region),
     ("city", .str result.city),
     ("latitude", .num result.latitude),
     ("longitude", .num result.longitude)])

/-- A one-entry stub database for concrete evaluation. -/
def dbStub : String → Option IP2LocationRecord := fun ip =>
  if ip = "172.217.168.195"
  then some ⟨"172.217.168.195", "US", "United States of America",
    "California", "Mountain View", 37, -122⟩
  else none

/-! ### Moving-average/anomaly renderer (`pltMovingAverage`, functions.py
lines 289-362)

The timeseries (one value column) is a `List ℚ`; a NaN cell is `none`.
`timeseries.rolling(window=w).mean()/.median()` places NaN at index `i` when
fewer than `w` observations exist (`i + 1 < w`) and otherwise applies the
measure to the `w` observations ending at `i`.  `timeseries.mad().item()` is
the mean absolute deviation of the whole column;
`stats.median_abs_deviation(timeseries)[0]` its median absolute deviation
(default scale 1, numpy median).  A pandas comparison against a NaN bound is
`False`, so warm-up points are never flagged as outliers. -/

def listMean (l : List ℚ) : ℚ := l.sum / l.length

/-- numpy-style median: middle element of the sorted values, or the mean of
the two middle elements when the length is even. -/
def listMedian (l : List ℚ) : ℚ :=
  if l.length % 2 = 1 then (l.insertionSort (· ≤ ·)).getD (l.length / 2) 0
  else ((l.insertionSort (· ≤ ·)).getD (l.length / 2 - 1) 0 +
    (l.insertionSort (· ≤ ·)).getD (l.length / 2) 0) / 2

/-- `timeseries.mad().item()`: mean absolute deviation of the whole series. -/
def madMean (ts : List ℚ) : ℚ := listMean (ts.map (fun x => |x - listMean ts|))

/-- `stats.median_abs_deviation(timeseries)[0]`: median absolute deviation
of the whole series. -/
def madMedian (ts : List ℚ) : ℚ :=
  listMedian (ts.map (fun x => |x - listMedian ts|))

/-- The window of (at most) `w` observations ending at index `i`. -/
def windowSlice (ts : List ℚ) (w i : Nat) : List ℚ :=
  (ts.take (i + 1)).drop (i + 1 - w)

/-- `timeseries.rolling(window=w)` followed by the measure `f`. -/
def rollingMeasure (f : List ℚ → ℚ) (ts : List ℚ) (w : Nat) : List (Option ℚ) :=
  (List.range ts.length).map (fun i =>
    if i + 1 < w then none else some (f (windowSlice ts w i)))

/-- The `rolling_measure` of `pltMovingAverage`: rolling mean when
`measure = "mean"`, rolling median otherwise (reached only for
`measure = "median"`, validation having passed). -/
def rollingOf (measure : String) (ts : List ℚ) (w : Nat) : List (Option ℚ) :=
  if measure = "mean" then rollingMeasure listMean ts w
  else rollingMeasure listMedian ts w

/-- The single deviation scalar `ts_mad`, computed from the entire series:
its mean absolute deviation when `madType = "mean"`, its median absolute
deviation otherwise (reached only for `madType = "median"`). -/
def madOf (madType : String) (ts : List ℚ) : ℚ :=
  if madType = "mean" then madMean ts else madMedian ts

/-- `lower_bound = rolling_measure - ts_mad`, pointwise, NaN staying NaN. -/
def lowerBound (measure madType : String) (ts : List ℚ) (w : Nat) :
    List (Option ℚ) :=
  (rollingOf measure ts w).map (Option.map (fun x => x - madOf madType ts))

/-- `upper_bound = rolling_measure + ts_mad`, pointwise, NaN staying NaN. -/
def upperBound (measure madType : String) (ts : List ℚ) (w : Nat) :
    List (Option ℚ) :=
  (rollingOf measure ts w).map (Option.map (fun x => x + madOf madType ts))

/-- Whether `timeseries[i] < lower_bound[i]` or
`timeseries[i] > upper_bound[i]`; comparisons against NaN are `False`. -/
def outsideBand (measure madType : String) (ts : List ℚ) (w i : Nat) : Bool :=
  (match (lowerBound measure madType ts w).getD i none with
   | none => false
   | some lb => decide (ts.getD i 0 < lb)) ||
  (match (upperBound measure madType ts w).getD i none with
   | none => false
   | some ub => decide (ub < ts.getD i 0))

/-- The `outliers` column: the series value where it falls outside the band,
NaN elsewhere. -/
def outlierSeries (measure madType : String) (ts : List ℚ) (w : Nat) :
    List (Option ℚ) :=
  (List.range ts.length).map (fun i =>
    if outsideBand measure madType ts w i then some (ts.getD i 0) else none)

/-- `n_outliers = outliers.count()[0]`: the number of non-NaN entries. -/
def nOutliers (measure madType : String) (ts : List ℚ) (w : Nat) : Nat :=
  (outlierSeries measure madType ts w).countP (fun o => o.isSome)

/-- One plotting call of `pltMovingAverage`. -/
inductive PlotEvent
  | figure
  | titleSet (t : String)
  | lineRolling (data : List (Option ℚ))
  | lineActual (data : List ℚ)
  | lineUpper (data : List (Option ℚ))
  | lineLower (data : List (Option ℚ))
  | lineOutliers (data : List (Option ℚ))
  | legend
deriving DecidableEq

/-- The `ValueError` message for an invalid `measure` (Python renders the
set `valid` with quotation marks around each element). -/
def measureErrMsg : String :=
  "Results: measure must be one of \x7bmean, median\x7d"

/-- The `ValueError` message for an invalid `madType`. -/
def madTypeErrMsg : String :=
  "Results: madType must be one of \x7bmean, median\x7d"

def movingAvgTitle (w : Nat) : String :=
  "Moving average with a window size of " ++ toString w

def outlierTitle (measure : String) (w n : Nat) : String :=
  "Moving " ++ measure ++ " with a window size of " ++ toString w ++
    "\n Number of outliers is " ++ toString n

/-- The plotting calls of one valid `pltMovingAverage` run, in source order:
figure and title, rolling curve, actual values from `timeseries[window:]`
on; with `plotBounds`, upper then lower bound; with `plotOutlier` as well,
outlier markers and the count-reporting title; finally the legend. -/
def pltEvents (ts : List ℚ) (window : Nat) (measure madType : String)
    (plotBounds plotOutlier : Bool) : List PlotEvent :=
  [PlotEvent.figure, PlotEvent.titleSet (movingAvgTitle window),
   PlotEvent.lineRolling (rollingOf measure ts window),
   PlotEvent.lineActual (ts.drop window)] ++
  (if plotBounds then
    [PlotEvent.lineUpper (upperBound measure madType ts window),
     PlotEvent.lineLower (lowerBound measure madType ts window)] ++
    (if plotOutlier then
      [PlotEvent.lineOutliers (outlierSeries measure madType ts window),
       PlotEvent.titleSet (outlierTitle measure window
         (nOutliers measure madType ts window))]
     else [])
   else []) ++ [PlotEvent.legend]

/-- `pltMovingAverage(timeseries, window, measure, madType, plotBounds,
plotOutlier)`: validate `measure` then `madType` against `valid`, raising
`ValueError` (modelled as `.error`) before any computation or plotting;
otherwise emit the plotting calls. -/
def pltMovingAverage (ts : List ℚ) (window : Nat) (measure madType : String)
    (plotBounds plotOutlier : Bool) : Except String (List PlotEvent) :=
  if ¬(measure = "mean" ∨ measure = "median") then .error measureErrMsg
  else if ¬(madType = "mean" ∨ madType = "median") then .error madTypeErrMsg
  else .ok (pltEvents ts window measure madType plotBounds plotOutlier)

end P4DS

namespace P4DS

theorem pyStartsWith_congr (s t : String) (c : Char)
    (h : s.data.head? = t.data.head?) : pyStartsWith s c = pyStartsWith t c := by
  unfold pyStartsWith
  cases hs : s.data <;> cases ht : t.data <;> simp_all

theorem pyStartsWith_unique (s : String) (c d : Char)
    (h : pyStartsWith s c = true) (hne : c ≠ d) : pyStartsWith s d = false := by
  unfold pyStartsWith at h ⊢
  cases hs : s.data <;> simp_all

theorem count_columnValues (df : List (String → String)) (col : String)
    (k : String) :
    (columnValues df col).count k = df.countP (fun row => row col == k) := by
  unfold columnValues
  rw [List.count_eq_countP, List.countP_map]
  rfl

end P4DS

namespace P4DS

/-- C1 (amended): for every input whose lower-cased, stripped form is
non-empty and starts with a character other than `'y'` and `'n'`, `yesNo`
returns the polarity of the default answer, `!default_no` — `false` when
`default_no` is `true`, but `true` when `default_no` is `false`. -/
theorem yesNo_unrecognized_returns_default (input : String) (default_no : Bool)
    (c : Char) (cs : List Char)
    (h : (pyStrip (pyLower input)).data = c :: cs)
    (hy : c ≠ 'y') (hn : c ≠ 'n') :
    yesNo input default_no = !default_no := by
  unfold yesNo
  rw [h, if_neg (List.cons_ne_nil c cs)]
  show (if c = 'y' then true else if c = 'n' then false
        else if default_no then false else true) = !default_no
  rw [if_neg hy, if_neg hn]
  cases default_no <;> rfl

/-- C1 witness: `"x"` is already stripped and lower-cased, is non-empty, and
starts with neither `'y'` nor `'n'`; on it `yesNo` with `default_no = false`
returns `!false = true`. -/
theorem yesNo_unrecognized_returns_default_witness :
    (pyStrip (pyLower "x")).data = ['x'] ∧ yesNo "x" false = !false :=
  ⟨by decide, yesNo_unrecognized_returns_default "x" false 'x' []
    (by decide) (by decide) (by decide)⟩

/-- C1 counterexample: the input `"x"` is non-empty, trimmed and lower-cased,
and its first character is neither `'y'` nor `'n'`, yet with
`default_no = false` the function returns `true`, not `false` as claimed:
the `else` branch of the source returns `False if default_no else True`. -/
theorem yesNo_unrecognized_not_always_false :
    ((pyStrip (pyLower "x")).data = ['x'] ∧ 'x' ≠ 'y' ∧ 'x' ≠ 'n') ∧
      yesNo "x" false = true := by decide

/-- C2: `httpStatusClass` depends only on the first character of its
argument, and maps a leading `'1'` to `"Informational"`, `'2'` to
`"Success"`, `'3'` to `"Redirection"`, `'4'` to `"Client errors"` and `'5'`
to `"Server errors"`; in particular `"404"`, `"503"` and `"200"` map to
`"Client errors"`, `"Server errors"` and `"Success"`. -/
theorem httpStatusClass_table (s t : String) :
    (s.data.head? = t.data.head? → httpStatusClass s = httpStatusClass t) ∧
    (pyStartsWith s '1' = true → httpStatusClass s = some "Informational") ∧
    (pyStartsWith s '2' = true → httpStatusClass s = some "Success") ∧
    (pyStartsWith s '3' = true → httpStatusClass s = some "Redirection") ∧
    (pyStartsWith s '4' = true → httpStatusClass s = some "Client errors") ∧
    (pyStartsWith s '5' = true → httpStatusClass s = some "Server errors") ∧
    httpStatusClass "404" = some "Client errors" ∧
    httpStatusClass "503" = some "Server errors" ∧
    httpStatusClass "200" = some "Success" := by
  refine ⟨fun h => ?_, fun h => ?_, fun h => ?_, fun h => ?_, fun h => ?_,
    fun h => ?_, by decide, by decide, by decide⟩
  · unfold httpStatusClass
    rw [pyStartsWith_congr s t '1' h, pyStartsWith_congr s t '2' h,
      pyStartsWith_congr s t '3' h, pyStartsWith_congr s t '4' h,
      pyStartsWith_congr s t '5' h]
  · simp [httpStatusClass, h]
  · simp [httpStatusClass, h, pyStartsWith_unique s '2' '1' h (by decide)]
  · simp [httpStatusClass, h, pyStartsWith_unique s '3' '1' h (by decide),
      pyStartsWith_unique s '3' '2' h (by decide)]
  · simp [httpStatusClass, h, pyStartsWith_unique s '4' '1' h (by decide),
      pyStartsWith_unique s '4' '2' h (by decide),
      pyStartsWith_unique s '4' '3' h (by decide)]
  · simp [httpStatusClass, h, pyStartsWith_unique s '5' '1' h (by decide),
      pyStartsWith_unique s '5' '2' h (by decide),
      pyStartsWith_unique s '5' '3' h (by decide),
      pyStartsWith_unique s '5' '4' h (by decide)]

/-- C2 witness: the table instantiated at `"100"`, `"204"`, `"301"`, `"404"`
and `"503"`, and first-character congruence at `"2xx"` versus `"200"`. -/
theorem httpStatusClass_table_witness :
    httpStatusClass "100" = some "Informational" ∧
    httpStatusClass "204" = some "Success" ∧
    httpStatusClass "301" = some "Redirection" ∧
    httpStatusClass "404" = some "Client errors" ∧
    httpStatusClass "503" = some "Server errors" ∧
    httpStatusClass "2xx" = httpStatusClass "200" :=
  ⟨(httpStatusClass_table "100" "100").2.1 (by decide),
   (httpStatusClass_table "204" "204").2.2.1 (by decide),
   (httpStatusClass_table "301" "301").2.2.2.1 (by decide),
   (httpStatusClass_table "404" "404").2.2.2.2.1 (by decide),
   (httpStatusClass_table "503" "503").2.2.2.2.2.1 (by decide),
   (httpStatusClass_table "2xx" "200").1 (by decide)⟩

/-- C10: on any string starting with none of `'1'`..`'5'` — the empty string
included — `httpStatusClass` falls through every branch and returns Python
`None` (`none`): no exception, no `"Unknown"` sentinel. -/
theorem httpStatusClass_unmatched_none (s : String)
    (h1 : pyStartsWith s '1' = false) (h2 : pyStartsWith s '2' = false)
    (h3 : pyStartsWith s '3' = false) (h4 : pyStartsWith s '4' = false)
    (h5 : pyStartsWith s '5' = false) :
    httpStatusClass s = none := by
  simp [httpStatusClass, h1, h2, h3, h4, h5]

/-- C10 witness: the empty string and `"abc"` both yield `none`. -/
theorem httpStatusClass_unmatched_none_witness :
    httpStatusClass "" = none ∧ httpStatusClass "abc" = none :=
  ⟨httpStatusClass_unmatched_none "" (by decide) (by decide) (by decide)
      (by decide) (by decide),
   httpStatusClass_unmatched_none "abc" (by decide) (by decide) (by decide)
      (by decide) (by decide)⟩

end P4DS

namespace P4DS

/-- C3: for every input table, grouping column and bound `top`, the result of
`dataGroupby` (i) has length at most `top`, (ii) has counts non-increasing in
order, (iii) pairs each returned key with exactly the number of input rows
whose grouping-column value equals that key, and (iv) omits no group whose
count exceeds that of any included group. -/
theorem dataGroupby_topN (df : List (String → String)) (col : String) (top : Nat) :
    (dataGroupby df col top).length ≤ top ∧
    (dataGroupby df col top).Pairwise (fun a b => b.2 ≤ a.2) ∧
    (∀ p ∈ dataGroupby df col top,
        p.2 = df.countP (fun row => row col == p.1)) ∧
    (∀ k ∈ columnValues df col, k ∉ (dataGroupby df col top).map Prod.fst →
        ∀ p ∈ dataGroupby df col top,
          df.countP (fun row => row col == k) ≤ p.2) := by
  have hsorted : ((groupSizes df col).insertionSort countDesc).Pairwise countDesc :=
    List.sorted_insertionSort countDesc (groupSizes df col)
  have hperm : List.Perm ((groupSizes df col).insertionSort countDesc)
      (groupSizes df col) :=
    List.perm_insertionSort countDesc (groupSizes df col)
  refine ⟨List.length_take_le top _, ?_, ?_, ?_⟩
  · exact (hsorted.sublist (List.take_sublist top _) : _)
  · intro p hp
    have hp2 : p ∈ groupSizes df col :=
      hperm.subset ((List.take_sublist top _).subset hp)
    obtain ⟨k, _, hpk⟩ := List.mem_map.mp hp2
    rw [← hpk]
    exact count_columnValues df col k
  · intro k hk hknot p hp
    have hkd : (k, (columnValues df col).count k) ∈ groupSizes df col :=
      List.mem_map.mpr ⟨k, List.mem_dedup.mpr hk, rfl⟩
    have hkL : (k, (columnValues df col).count k) ∈
        (groupSizes df col).insertionSort countDesc := hperm.mem_iff.mpr hkd
    rw [← List.take_append_drop top ((groupSizes df col).insertionSort countDesc)]
      at hkL
    have hkdrop : (k, (columnValues df col).count k) ∈
        ((groupSizes df col).insertionSort countDesc).drop top := by
      rcases List.mem_append.mp hkL with h | h
      · exact absurd (List.mem_map.mpr ⟨_, h, rfl⟩) hknot
      · exact h
    have hsplit := List.pairwise_append.mp
      (by rwa [List.take_append_drop top
        ((groupSizes df col).insertionSort countDesc)] : 
        (((groupSizes df col).insertionSort countDesc).take top ++
          ((groupSizes df col).insertionSort countDesc).drop top).Pairwise countDesc)
    have := hsplit.2.2 p hp _ hkdrop
    rw [← count_columnValues df col k]
    exact this

/-- An example row of the spec's end-to-end scenario. -/
def exampleRow (country city : String) : String → String :=
  fun c => if c = "country" then country else if c = "city" then city else ""

/-- The spec's example table: two NL/Amsterdam rows and one US/NYC row. -/
def exampleDf : List (String → String) :=
  [exampleRow "NL" "Amsterdam", exampleRow "NL" "Amsterdam", exampleRow "US" "NYC"]

/-- C3 witness: on the spec's example table grouped by `"country"` with
`top = 1`, the omitted group `"US"` (count 1) does not exceed the included
group `("NL", 2)`; with `top = 2` the result is `[("NL", 2), ("US", 1)]`. -/
theorem dataGroupby_topN_witness :
    exampleDf.countP (fun row => row "country" == "US") ≤ ("NL", 2).2 ∧
    (dataGroupby exampleDf "country" 1).length ≤ 1 ∧
    dataGroupby exampleDf "country" 2 = [("NL", 2), ("US", 1)] :=
  ⟨(dataGroupby_topN exampleDf "country" 1).2.2.2 "US" (by decide) (by decide)
      ("NL", 2) (by decide),
   (dataGroupby_topN exampleDf "country" 1).1,
   by decide⟩

end P4DS

namespace P4DS

/-- C4: in every execution of `downloadData` in which one of the four
failure categories occurs — the POST raises a `requests` exception
(connection failure, timeout, other transport error, or an `HTTPError`), or
the response status is an HTTP-level error in [400, 600) — the failure is
caught inside the function, its category's error message is printed, and no
exception escapes to the caller. -/
theorem downloadData_swallows_transport_failures (env : SplunkEnv)
    (search_user app searchname path output_file output_type host : String)
    (hconf : yesNo env.answer true = true)
    (hfail : (∃ e, env.post = .error e) ∨
      ∃ r, env.post = .ok r ∧ 400 ≤ r.status ∧ r.status < 600) :
    (downloadData env search_user app searchname path output_file
        output_type host).raised = none ∧
    ∃ e : TransportError,
      Event.printed (transportMsg e) ∈
        (downloadData env search_user app searchname path output_file
          output_type host).events := by
  rcases hfail with ⟨e, he⟩ | ⟨r, hr, h4, h6⟩
  · simp only [downloadData, tryDownload, hconf, if_true, he]
    exact ⟨by simp, e, by simp⟩
  · have hrs : raise_for_status r = .error (.httpError r.errorText) := by
      simp [raise_for_status, h4, h6]
    simp only [downloadData, tryDownload, hconf, if_true, hr, hrs]
    exact ⟨by simp, .httpError r.errorText, by simp⟩

/-- C4 witness: a confirmed run whose POST times out ends with no escaping
exception and the timeout message printed. -/
theorem downloadData_swallows_transport_failures_witness :
    (downloadData ⟨"y", .error (.timeout "boom"), true, .ok (), .ok (), 0⟩
        "admin" "search" "weblogs" "../data/" "weblog" "csv" "localhost").raised
        = none ∧
    ∃ e : TransportError,
      Event.printed (transportMsg e) ∈
        (downloadData ⟨"y", .error (.timeout "boom"), true, .ok (), .ok (), 0⟩
          "admin" "search" "weblogs" "../data/" "weblog" "csv" "localhost").events :=
  downloadData_swallows_transport_failures _ "admin" "search" "weblogs"
    "../data/" "weblog" "csv" "localhost" (by decide)
    (Or.inl ⟨.timeout "boom", rfl⟩)

/-- C5: when the confirmation prompt answers no, `downloadData` only prints
the decline message: its whole trace is that single print, so no credentials
are read, no HTTP request is issued, no directory is created, no file is
written, and nothing is raised. -/
theorem downloadData_declined_noop (env : SplunkEnv)
    (search_user app searchname path output_file output_type host : String)
    (hconf : yesNo env.answer true = false) :
    downloadData env search_user app searchname path output_file output_type
        host = ⟨[Event.printed declineMsg], none⟩ ∧
    Event.readUsername ∉ (downloadData env search_user app searchname path
        output_file output_type host).events ∧
    Event.readPassword ∉ (downloadData env search_user app searchname path
        output_file output_type host).events ∧
    (∀ u o b, Event.httpPost u o b ∉ (downloadData env search_user app
        searchname path output_file output_type host).events) ∧
    (∀ p, Event.madeDir p ∉ (downloadData env search_user app searchname path
        output_file output_type host).events) ∧
    (∀ f c, Event.wroteFile f c ∉ (downloadData env search_user app searchname
        path output_file output_type host).events) := by
  have h : downloadData env search_user app searchname path output_file
      output_type host = ⟨[Event.printed declineMsg], none⟩ := by
    simp only [downloadData, hconf]
    rfl
  rw [h]
  refine ⟨rfl, by simp, by simp, fun u o b => by simp, fun p => by simp,
    fun f c => by simp⟩

/-- C5 witness: answering `"n"` declines, and the run is the single decline
print. -/
theorem downloadData_declined_noop_witness :
    downloadData ⟨"n", .error (.timeout "t"), false, .ok (), .ok (), 0⟩
        "admin" "search" "weblogs" "../data/" "weblog" "csv" "localhost" =
      ⟨[Event.printed declineMsg], none⟩ :=
  (downloadData_declined_noop _ "admin" "search" "weblogs" "../data/" "weblog"
    "csv" "localhost" (by decide)).1

end P4DS

namespace P4DS

/-- C9 counterexample: on a database lookup that succeeds, the first key of
the record `getLocation` builds is `"clientip"`, not `"ip"` as the claim's
field list states. -/
theorem getLocation_first_field_not_ip :
    (dbStub "172.217.168.195").isSome = true ∧
    (getLocation dbStub "172.217.168.195").map (fun l => l.map Prod.fst) =
      some ["clientip", "country_short", "country_long", "region", "city",
        "latitude", "longitude"] ∧
    (getLocation dbStub "172.217.168.195").map (fun l => l.map Prod.fst) ≠
      some ["ip", "country_short", "country_long", "region", "city",
        "latitude", "longitude"] := by decide

/-- C9 (amended): for every IP whose database lookup succeeds, `getLocation`
returns a record with exactly the seven fields (clientip, country_short,
country_long, region, city, latitude, longitude), the `clientip` field
populated from the `ip` field of the database result and each other field
from its same-named field. -/
theorem getLocation_fields (database : String → Option IP2LocationRecord)
    (ip : String) (result : IP2LocationRecord)
    (h : database ip = some result) :
    getLocation database ip =
      some [("clientip", .str result.ip),
        ("country_short", .str result.country_short),
        ("country_long", .str result.country_long),
        ("region", .str result.region),
        ("city", .str result.city),
        ("latitude", .num result.latitude),
        ("longitude", .num result.longitude)] := by
  simp [getLocation, h]

/-- C9 witness: the stub database at its one known IP. -/
theorem getLocation_fields_witness :
    getLocation dbStub "172.217.168.195" =
      some [("clientip", .str "172.217.168.195"), ("country_short", .str "US"),
        ("country_long", .str "United States of America"),
        ("region", .str "California"), ("city", .str "Mountain View"),
        ("latitude", .num 37), ("longitude", .num (-122))] :=
  getLocation_fields dbStub "172.217.168.195"
    ⟨"172.217.168.195", "US", "United States of America", "California",
      "Mountain View", 37, -122⟩ (by decide)

end P4DS

namespace P4DS

/-- C6: a `measure` outside mean/median makes `pltMovingAverage` raise
`ValueError` with the measure message; with a valid `measure`, a `madType`
outside mean/median raises with the madType message.  Either way the result
is `.error`: no rolling computation is reported and no plot event occurs. -/
theorem pltMovingAverage_rejects_invalid (ts : List ℚ) (window : Nat)
    (measure madType : String) (plotBounds plotOutlier : Bool) :
    (¬(measure = "mean" ∨ measure = "median") →
      pltMovingAverage ts window measure madType plotBounds plotOutlier =
        .error measureErrMsg) ∧
    ((measure = "mean" ∨ measure = "median") →
      ¬(madType = "mean" ∨ madType = "median") →
      pltMovingAverage ts window measure madType plotBounds plotOutlier =
        .error madTypeErrMsg) := by
  constructor
  · intro h
    unfold pltMovingAverage
    rw [if_pos h]
  · intro hm h
    unfold pltMovingAverage
    rw [if_neg (not_not_intro hm), if_pos h]

/-- C6 witness: `measure = "bogus"` and `madType = "bogus"` are each
rejected before any plotting. -/
theorem pltMovingAverage_rejects_invalid_witness :
    pltMovingAverage [1, 2, 3] 2 "bogus" "mean" true true =
      .error measureErrMsg ∧
    pltMovingAverage [1, 2, 3] 2 "mean" "bogus" true true =
      .error madTypeErrMsg :=
  ⟨(pltMovingAverage_rejects_invalid [1, 2, 3] 2 "bogus" "mean" true true).1
      (by decide),
   (pltMovingAverage_rejects_invalid [1, 2, 3] 2 "mean" "bogus" true true).2
      (Or.inl rfl) (by decide)⟩

theorem getD_map_optionMap (R : List (Option ℚ)) (g : ℚ → ℚ) :
    ∀ i, (R.map (Option.map g)).getD i none = (R.getD i none).map g := by
  induction R with
  | nil => intro i; simp
  | cons a R ih =>
    intro i
    cases i with
    | zero => simp
    | succ j => simpa using ih j

/-- C7: with `plotBounds`, the deviation is one scalar computed from the
entire input series — its mean absolute deviation when `madType = "mean"`,
its median absolute deviation when `madType = "median"`, not a per-window
value — and at every index the plotted lower and upper bounds are exactly
the rolling measure minus and plus that single constant. -/
theorem pltMovingAverage_constant_band (ts : List ℚ) (window : Nat)
    (measure madType : String) (plotOutlier : Bool)
    (hm : measure = "mean" ∨ measure = "median")
    (hmt : madType = "mean" ∨ madType = "median") :
    ∃ evs L U d,
      pltMovingAverage ts window measure madType true plotOutlier = .ok evs ∧
      PlotEvent.lineLower L ∈ evs ∧
      PlotEvent.lineUpper U ∈ evs ∧
      (madType = "mean" → d = listMean (ts.map (fun x => |x - listMean ts|))) ∧
      (madType = "median" →
        d = listMedian (ts.map (fun x => |x - listMedian ts|))) ∧
      (∀ i, L.getD i none =
        ((rollingOf measure ts window).getD i none).map (fun x => x - d)) ∧
      (∀ i, U.getD i none =
        ((rollingOf measure ts window).getD i none).map (fun x => x + d)) := by
  refine ⟨pltEvents ts window measure madType true plotOutlier,
    lowerBound measure madType ts window, upperBound measure madType ts window,
    madOf madType ts, ?_, ?_, ?_, ?_, ?_, ?_, ?_⟩
  · unfold pltMovingAverage
    rw [if_neg (not_not_intro hm), if_neg (not_not_intro hmt)]
  · cases plotOutlier <;> simp [pltEvents]
  · cases plotOutlier <;> simp [pltEvents]
  · intro h
    unfold madOf
    rw [if_pos h]
    rfl
  · intro h
    subst h
    unfold madOf
    rw [if_neg (by decide)]
    rfl
  · intro i
    exact getD_map_optionMap (rollingOf measure ts window) _ i
  · intro i
    exact getD_map_optionMap (rollingOf measure ts window) _ i

/-- C7 witness: the band relation instantiated on a concrete series with
mean measure and mean absolute deviation. -/
theorem pltMovingAverage_constant_band_witness :
    ∃ evs L U d,
      pltMovingAverage [1, 2, 3, 4] 2 "mean" "mean" true false = .ok evs ∧
      PlotEvent.lineLower L ∈ evs ∧
      PlotEvent.lineUpper U ∈ evs ∧
      ("mean" = "mean" →
        d = listMean ([1, 2, 3, 4].map (fun x => |x - listMean [1, 2, 3, 4]|))) ∧
      ("mean" = "median" →
        d = listMedian ([1, 2, 3, 4].map (fun x => |x - listMedian [1, 2, 3, 4]|))) ∧
      (∀ i, L.getD i none =
        ((rollingOf "mean" [1, 2, 3, 4] 2).getD i none).map (fun x => x - d)) ∧
      (∀ i, U.getD i none =
        ((rollingOf "mean" [1, 2, 3, 4] 2).getD i none).map (fun x => x + d)) :=
  pltMovingAverage_constant_band [1, 2, 3, 4] 2 "mean" "mean" false
    (Or.inl rfl) (Or.inl rfl)

end P4DS

namespace P4DS

theorem countP_eq_one_range (n i0 : Nat) (h : i0 < n) :
    (List.range n).countP (fun i => i == i0) = 1 := by
  induction n with
  | zero => omega
  | succ m ih =>
    rw [List.range_succ, List.countP_append]
    rcases Nat.lt_succ_iff_lt_or_eq.mp h with h2 | h2
    · rw [ih h2]
      have hne : (m == i0) = false := by
        simp [Nat.ne_of_gt h2]
      simp [List.countP_cons, hne]
    · subst h2
      have hz : (List.range i0).countP (fun i => i == i0) = 0 := by
        rw [List.countP_eq_zero]
        intro i hi
        simp [Nat.ne_of_lt (List.mem_range.mp hi)]
      rw [hz]
      simp [List.countP_cons]

theorem nOutliers_single (measure madType : String) (ts : List ℚ) (w i0 : Nat)
    (h0 : i0 < ts.length)
    (hout : outsideBand measure madType ts w i0 = true)
    (hrest : ∀ i < ts.length, i ≠ i0 →
      outsideBand measure madType ts w i = false) :
    nOutliers measure madType ts w = 1 := by
  have h1 : nOutliers measure madType ts w =
      (List.range ts.length).countP
        (fun i => outsideBand measure madType ts w i) := by
    unfold nOutliers outlierSeries
    rw [List.countP_map]
    apply List.countP_congr
    intro i _
    by_cases hb : outsideBand measure madType ts w i <;> simp [hb]
  have h2 : (List.range ts.length).countP
        (fun i => outsideBand measure madType ts w i) =
      (List.range ts.length).countP (fun i => i == i0) := by
    apply List.countP_congr
    intro i hi
    have hi2 : i < ts.length := List.mem_range.mp hi
    by_cases he : i = i0
    · subst he; simp [hout]
    · simp [hrest i hi2 he, he]
  rw [h1, h2]
  exact countP_eq_one_range ts.length i0 h0

theorem getD_map_range {α : Type} (g : Nat → α) (d : α) (n i : Nat)
    (h : i < n) : ((List.range n).map g).getD i d = g i := by
  rw [List.getD_eq_getElem?_getD, List.getElem?_map, List.getElem?_range h]
  rfl

/-- C8: when exactly one point of the series lies strictly outside the band
`rolling ± deviation` at its own index — and every other point does not —
running `pltMovingAverage` with `plotBounds` and `plotOutlier` plots an
outlier marker exactly at that point (`none` at every other index) and its
title reports an outlier count of 1. -/
theorem pltMovingAverage_single_outlier (ts : List ℚ) (window : Nat)
    (measure madType : String) (i0 : Nat)
    (hm : measure = "mean" ∨ measure = "median")
    (hmt : madType = "mean" ∨ madType = "median")
    (h0 : i0 < ts.length)
    (hout : outsideBand measure madType ts window i0 = true)
    (hrest : ∀ i < ts.length, i ≠ i0 →
      outsideBand measure madType ts window i = false) :
    ∃ evs, pltMovingAverage ts window measure madType true true = .ok evs ∧
      PlotEvent.lineOutliers (outlierSeries measure madType ts window) ∈ evs ∧
      PlotEvent.titleSet (outlierTitle measure window 1) ∈ evs ∧
      (outlierSeries measure madType ts window).getD i0 none =
        some (ts.getD i0 0) ∧
      (∀ j < ts.length, j ≠ i0 →
        (outlierSeries measure madType ts window).getD j none = none) ∧
      nOutliers measure madType ts window = 1 := by
  have hn := nOutliers_single measure madType ts window i0 h0 hout hrest
  refine ⟨pltEvents ts window measure madType true true, ?_, ?_, ?_, ?_, ?_, hn⟩
  · unfold pltMovingAverage
    rw [if_neg (not_not_intro hm), if_neg (not_not_intro hmt)]
  · simp [pltEvents]
  · rw [← hn]
    simp [pltEvents]
  · unfold outlierSeries
    rw [getD_map_range _ _ _ _ h0, if_pos hout]
  · intro j hj hne
    unfold outlierSeries
    rw [getD_map_range _ _ _ _ hj, if_neg (by simp [hrest j hj hne])]

/-- C8 witness: in `[0, 0, 0, 100]` with window 2 and mean measure and
deviation, only index 3 (value 100, rolling 50, deviation 37.5, band
[12.5, 87.5]) lies outside the band, and the run flags it alone with a
reported count of 1. -/
theorem pltMovingAverage_single_outlier_witness :
    ∃ evs, pltMovingAverage [0, 0, 0, 100] 2 "mean" "mean" true true = .ok evs ∧
      PlotEvent.lineOutliers (outlierSeries "mean" "mean" [0, 0, 0, 100] 2) ∈ evs ∧
      PlotEvent.titleSet (outlierTitle "mean" 2 1) ∈ evs ∧
      (outlierSeries "mean" "mean" [0, 0, 0, 100] 2).getD 3 none =
        some ([0, 0, 0, 100].getD 3 0) ∧
      (∀ j < ([0, 0, 0, 100] : List ℚ).length, j ≠ 3 →
        (outlierSeries "mean" "mean" [0, 0, 0, 100] 2).getD j none = none) ∧
      nOutliers "mean" "mean" [0, 0, 0, 100] 2 = 1 := by
  have hr : List.range 4 = [0, 1, 2, 3] := by decide
  have hout : outsideBand "mean" "mean" [0, 0, 0, 100] 2 3 = true := by
    norm_num [outsideBand, lowerBound, upperBound, rollingOf, rollingMeasure,
      madOf, madMean, listMean, windowSlice, hr, List.sum_cons, List.sum_nil]
  have hrest : ∀ i < ([0, 0, 0, 100] : List ℚ).length, i ≠ 3 →
      outsideBand "mean" "mean" [0, 0, 0, 100] 2 i = false := by
    intro i hi hne
    have hi4 : i < 4 := by simpa using hi
    clear hi
    interval_cases i
    · norm_num [outsideBand, lowerBound, upperBound, rollingOf, rollingMeasure,
        madOf, madMean, listMean, windowSlice, hr, List.sum_cons, List.sum_nil]
    · norm_num [outsideBand, lowerBound, upperBound, rollingOf, rollingMeasure,
        madOf, madMean, listMean, windowSlice, hr, List.sum_cons, List.sum_nil]
    · norm_num [outsideBand, lowerBound, upperBound, rollingOf, rollingMeasure,
        madOf, madMean, listMean, windowSlice, hr, List.sum_cons, List.sum_nil]
    · exact absurd rfl hne
  exact pltMovingAverage_single_outlier [0, 0, 0, 100] 2 "mean" "mean" 3
    (Or.inl rfl) (Or.inl rfl) (by decide) hout hrest

end P4DS
